import Mathlib

/-
Verification of the JERRY health-supplement recommendation core.

The Python sources under src/1_SRC are shallowly embedded below:
dict-shaped payloads become structures whose fields are the keys the
code actually reads (a field of type Option models a key that may be
absent or hold None), machine floats become ℚ, fallible code returns
Except String, and the external Chroma vector store is an abstract
function argument.  datetime.now() values are threaded as explicit
parameters.
-/

namespace JERRY

/-! ## Generic helpers (Python semantics) -/

/-- Equality of Except values is decidable when both components are. -/
instance instDecEqExcept [DecidableEq ε] [DecidableEq α] : DecidableEq (Except ε α) :=
  fun x y =>
    match x, y with
    | Except.error a, Except.error b =>
        if h : a = b then .isTrue (h ▸ rfl)
        else .isFalse (fun hh => h (Except.error.inj hh))
    | Except.error _, Except.ok _ => .isFalse (fun hh => Except.noConfusion hh)
    | Except.ok _, Except.error _ => .isFalse (fun hh => Except.noConfusion hh)
    | Except.ok a, Except.ok b =>
        if h : a = b then .isTrue (h ▸ rfl)
        else .isFalse (fun hh => h (Except.ok.inj hh))

/-- Python str() of an Optional[str] value as used inside f-strings:
None renders as the four characters None. -/
def pyOptStr : Option String → String
  | none => "None"
  | some s => s

/-- Python str() of an Optional[int] value inside an f-string. -/
def pyOptIntStr : Option ℤ → String
  | none => "None"
  | some n => toString n

/-- Truthiness of an Optional float: None and 0.0 are falsy. -/
def pyTruthyQ : Option ℚ → Bool
  | none => false
  | some q => q != 0

/-- Truthiness of an Optional int: None and 0 are falsy. -/
def pyTruthyZ : Option ℤ → Bool
  | none => false
  | some n => n != 0

/-- Python chained test v and v > th over an Optional int and a float
threshold: None and 0 short-circuit to false. -/
def pyTruthyGt (v : Option ℤ) (th : ℚ) : Bool :=
  match v with
  | none => false
  | some n => n != 0 && decide ((n : ℚ) > th)

/-- s.startswith(p), evaluated over the character lists. -/
def strStartsWith (s p : String) : Bool :=
  p.toList.isPrefixOf s.toList

/-- One pass of str.replace over character lists; the fuel argument is
the length of the scanned list, which bounds the recursion. -/
def replaceGo (pat rep : List Char) : ℕ → List Char → List Char
  | _, [] => []
  | 0, l => l
  | Nat.succ fuel, c :: rest =>
      if pat.isPrefixOf (c :: rest) && !pat.isEmpty then
        rep ++ replaceGo pat rep fuel (List.drop pat.length (c :: rest))
      else
        c :: replaceGo pat rep fuel rest

/-- s.replace(pat, rep): every occurrence of pat is replaced, scanning
left to right. -/
def strReplace (s pat rep : String) : String :=
  String.mk (replaceGo pat.toList rep.toList s.toList.length s.toList)

/-- Assignment d[k] = v on a Python dict held as an association list:
an existing key is overwritten in place, a new key is appended. -/
def dictSet [DecidableEq α] (k : α) (v : β) : List (α × β) → List (α × β)
  | [] => [(k, v)]
  | (k', v') :: t => if k' = k then (k, v) :: t else (k', v') :: dictSet k v t

/-- Stable insertion into a list sorted by key in descending order: the
inserted element goes in front of the first strictly smaller key, hence
after earlier elements with an equal key. -/
def insertDescBy [LinearOrder β] (key : α → β) (a : α) : List α → List α
  | [] => [a]
  | x :: xs => if key x ≤ key a then a :: x :: xs else x :: insertDescBy key a xs

/-- Python sorted(l, key, reverse=True): stable descending sort. -/
def sortDescBy [LinearOrder β] (key : α → β) : List α → List α
  | [] => []
  | x :: xs => insertDescBy key x (sortDescBy key xs)

/-- Round-half-to-even of a rational to an integer, the rounding mode
of Python round(). -/
def roundHalfEven (q : ℚ) : ℤ :=
  if q - ⌊q⌋ < 1/2 then ⌊q⌋
  else if 1/2 < q - ⌊q⌋ then ⌊q⌋ + 1
  else if ⌊q⌋ % 2 = 0 then ⌊q⌋ else ⌊q⌋ + 1

/-- Python round(x, 2) over the rational model of floats. -/
def round2 (q : ℚ) : ℚ := (roundHalfEven (q * 100) : ℚ) / 100

/-! ## Raw health-data payload

The health_data dict passed to EnhancedHealthAnalyzer.analyze,
QuestionGenerator.generate_questions and
EnhancedHealthAnalyzer._determine_required_checks, keeping exactly the
keys those functions read. -/

/-- health_data["medical_history"]. -/
structure MedicalHistory where
  medications : List String
  chronic_conditions : List String
deriving DecidableEq

/-- health_data["lifestyle"]; none models a missing or empty (falsy)
lifestyle dict. -/
structure Lifestyle where
  exercise_frequency : Option ℤ
  sleep_hours : Option ℚ
  stress_level : Option ℤ
  smoking : Option Bool
  alcohol : Option Bool
deriving DecidableEq

/-- health_data["blood_test"]. -/
structure BloodTest where
  glucose_fasting : Option ℚ
deriving DecidableEq

/-- The raw health_data dict. -/
structure HealthPayload where
  medical_history : Option MedicalHistory
  lifestyle : Option Lifestyle
  blood_test : Option BloodTest
deriving DecidableEq

/-- health_data.get("medical_history", dict()).get("medications", []). -/
def medicationsOf (h : HealthPayload) : List String :=
  match h.medical_history with
  | some m => m.medications
  | none => []

/-- health_data.get("medical_history", dict()).get("chronic_conditions", []). -/
def chronicConditionsOf (h : HealthPayload) : List String :=
  match h.medical_history with
  | some m => m.chronic_conditions
  | none => []

/-- health_data.get("blood_test", dict()).get("glucose_fasting", 0). -/
def glucoseFastingOf (h : HealthPayload) : ℚ :=
  match h.blood_test with
  | some b => b.glucose_fasting.getD 0
  | none => 0

/-! ## Evidence store interface

ChromaManager.similarity_search returns index-aligned documents,
metadatas and distances; a store call may raise, which the Except
models.  Metadata dicts are opaque payloads here. -/

/-- The dict returned by similarity_search. -/
structure SearchRes where
  documents : List String
  metadatas : List String
  distances : List ℚ
deriving DecidableEq

/-- The abstract evidence store: query, collection_name, n_results. -/
abbrev Store := String → String → ℕ → Except String SearchRes

/-- results["distances"][0]: raises IndexError on an empty list. -/
def headDistance (r : SearchRes) : Except String ℚ :=
  match r.distances with
  | [] => .error "IndexError: list index out of range"
  | d :: _ => .ok d

/-! ## health_analyzer._calculate_confidence_levels (claim C1) -/

/-- A recommendation dict as read by _calculate_confidence_levels:
the keys type, name and confidence; name is present but may hold None
(it is copied from meta.get("name")). -/
structure RecDict where
  rtype : Option String
  name : Option String
  confidence : Option ℚ
deriving DecidableEq

/-- An evidence dict as read by _calculate_confidence_levels: the keys
type and relevance_score, both read with .get. -/
structure EvDict where
  etype : Option String
  relevance_score : Option ℚ
deriving DecidableEq

/-- The evidence_boost computed for one recommendation: the mean
relevance_score of the evidence entries whose type equals the
recommendation type, and 0.0 when none match. -/
def evidenceBoost (rec : RecDict) (evidence : List EvDict) : ℚ :=
  let relevant := evidence.filter (fun e => e.etype == rec.rtype)
  if relevant.isEmpty then 0
  else (relevant.map (fun e => e.relevance_score.getD 0)).sum / relevant.length

/-- The final_confidence of one recommendation before rounding:
min(0.95, base_confidence + evidence_boost * 0.2) with base_confidence
= rec.get("confidence", 0.5). -/
def finalConfidence (rec : RecDict) (evidence : List EvDict) : ℚ :=
  min (95/100) (rec.confidence.getD (1/2) + evidenceBoost rec evidence * (2/10))

/-- Modelled from the spec: the confidence formula as the spec states
it, min(0.95, base_confidence + evidence_boost*0.2), with no rounding
step; kept separate to compare with the implementation, which rounds
the stored value to two decimals. -/
def specConfidenceFormula (rec : RecDict) (evidence : List EvDict) : ℚ :=
  min (95/100) (rec.confidence.getD (1/2) + evidenceBoost rec evidence * (2/10))

/-- _calculate_confidence_levels: builds the confidence_levels dict,
storing round(final_confidence, 2) under rec["name"]. -/
def calculateConfidenceLevels (recs : List RecDict) (evidence : List EvDict) :
    List (Option String × ℚ) :=
  recs.foldl (fun acc rec => dictSet rec.name (round2 (finalConfidence rec evidence)) acc) []

/-! ## health_analyzer._analyze_interactions (claims C2, C6) -/

/-- A recommendation dict as read by _analyze_interactions: only
rec["name"] is accessed. -/
structure RecName where
  name : Option String
deriving DecidableEq

/-- An interaction-warning dict; target holds rec["name"] verbatim. -/
structure InteractionWarning where
  source : String
  target : Option String
  severity : String
  description : String
  evidence : List String
deriving DecidableEq

/-- The medication loop of _analyze_interactions for one
recommendation: one store query per medication against the
interactions collection; severity is high when the top distance
exceeds 0.8, else medium. -/
def medicationWarnings (store : Store) (nm : Option String) :
    List String → Except String (List InteractionWarning)
  | [] => .ok []
  | med :: rest => do
      let res ← store (pyOptStr nm ++ " interaction with " ++ med) "interactions" 2
      let ws ←
        if res.documents.isEmpty then pure []
        else do
          let d ← headDistance res
          pure [⟨"medication_" ++ med, nm,
                if d > 8/10 then "high" else "medium",
                pyOptStr nm ++ "과(와) " ++ med ++ " 간의 상호작용 가능성이 있습니다.",
                res.metadatas⟩]
      let more ← medicationWarnings store nm rest
      .ok (ws ++ more)

/-- The chronic-condition loop of _analyze_interactions for one
recommendation, querying the health_data collection. -/
def conditionWarnings (store : Store) (nm : Option String) :
    List String → Except String (List InteractionWarning)
  | [] => .ok []
  | cond :: rest => do
      let res ← store (pyOptStr nm ++ " risks with " ++ cond) "health_data" 2
      let ws ←
        if res.documents.isEmpty then pure []
        else do
          let d ← headDistance res
          pure [⟨"condition_" ++ cond, nm,
                if d > 8/10 then "high" else "medium",
                cond ++ " 환자의 경우 " ++ pyOptStr nm ++ " 복용 시 주의가 필요합니다.",
                res.metadatas⟩]
      let more ← conditionWarnings store nm rest
      .ok (ws ++ more)

/-- _analyze_interactions: for every recommendation, run the
medication pairs then the condition pairs; any store exception
propagates. -/
def analyzeInteractions (store : Store) (recs : List RecName) (h : HealthPayload) :
    Except String (List InteractionWarning) :=
  match recs with
  | [] => .ok []
  | rec :: rest => do
      let mw ← medicationWarnings store rec.name (medicationsOf h)
      let cw ← conditionWarnings store rec.name (chronicConditionsOf h)
      let more ← analyzeInteractions store rest h
      .ok (mw ++ cw ++ more)

/-- The required_checks entry built from one high-severity warning. -/
def warningCheck (w : InteractionWarning) : String :=
  pyOptStr w.target ++ " 복용 전 " ++ w.source ++ " 관련 전문의 상담 필요"

/-- The warning loop of _determine_required_checks: only severity high
appends an entry. -/
def warningChecks : List InteractionWarning → List String
  | [] => []
  | w :: rest =>
      (if w.severity == "high" then [warningCheck w] else []) ++ warningChecks rest

/-- _determine_required_checks: warning-based entries, then the
chronic-condition entry, then the fasting-glucose entry. -/
def determineRequiredChecks (h : HealthPayload) (ws : List InteractionWarning) :
    List String :=
  warningChecks ws
    ++ (if (chronicConditionsOf h).isEmpty then [] else ["만성질환 관리 상태 확인 필요"])
    ++ (if glucoseFastingOf h > 100 then ["공복혈당 관련 추가 검사 권장"] else [])

/-- Steps 4 and 7 of EnhancedHealthAnalyzer.analyze: the warning list
computed by _analyze_interactions is stored in the AnalysisResult and
is the same list passed to _determine_required_checks. -/
def analyzeWarningsAndChecks (store : Store) (recs : List RecName) (h : HealthPayload) :
    Except String (List InteractionWarning × List String) := do
  let ws ← analyzeInteractions store recs h
  .ok (ws, determineRequiredChecks h ws)

/-! ## client_health_analyzer.analyze_risk_factors (claim C9) -/

/-- A value stored under the value or threshold key of a risk-factor
dict: a number or an f-string rendering. -/
inductive RFValue where
  | num (q : ℚ)
  | str (s : String)
deriving DecidableEq

/-- A risk-factor dict produced by analyze_risk_factors. -/
structure RiskFactor where
  rf_type : String
  severity : String
  value : RFValue
  threshold : RFValue
  lifestyle_factors : List String
deriving DecidableEq

/-- The HealthData fields read by analyze_risk_factors. -/
structure HealthData where
  bmi : Option ℚ
  systolic_bp : Option ℤ
  diastolic_bp : Option ℤ
  total_cholesterol : Option ℤ
  sgotast : Option ℤ
  sgptalt : Option ℤ
  exercise_frequency : Option ℤ
deriving DecidableEq

/-- The numeric thresholds and lifestyle-factor lists extracted from
the externally configured health keywords (configuration loading is
out of scope); a none field falls back to the hard-coded default of
analyze_risk_factors. -/
structure KeywordConfig where
  obesity_bmi : Option ℚ
  underweight_bmi : Option ℚ
  hypertension_systolic : Option ℚ
  hypertension_diastolic : Option ℚ
  cholesterol_total : Option ℚ
  liver_ast : Option ℚ
  liver_alt : Option ℚ
  sedentary_exercise : Option ℚ
  obesity_lifestyle : List String
  underweight_lifestyle : List String
  hypertension_lifestyle : List String
  cholesterol_lifestyle : List String
  liver_lifestyle : List String
  sedentary_lifestyle : List String
deriving DecidableEq

/-- The configuration with no thresholds configured, so every lookup
takes its default. -/
def defaultConfig : KeywordConfig :=
  ⟨none, none, none, none, none, none, none, none, [], [], [], [], [], []⟩

/-- Digits of the fractional part of a nonnegative rational, rendered
until the remainder is zero or the fuel runs out; models the decimal
rendering a Python f-string applies to a float threshold. -/
def fracDigits : ℕ → ℚ → String
  | 0, _ => ""
  | Nat.succ fuel, q =>
      let d : ℤ := ⌊q * 10⌋
      let r : ℚ := q * 10 - d
      toString d ++ (if r = 0 then "" else fracDigits fuel r)

/-- Python str() of a nonnegative float, over the rational model: at
least one fractional digit is always printed. -/
def pyFloatStrNN (q : ℚ) : String :=
  toString ⌊q⌋ ++ "." ++ (if q - ⌊q⌋ = 0 then "0" else fracDigits 17 (q - ⌊q⌋))

/-- Python str() of a float, over the rational model. -/
def pyFloatStr (q : ℚ) : String :=
  if q < 0 then "-" ++ pyFloatStrNN (-q) else pyFloatStrNN q

/-- The BMI block of analyze_risk_factors. -/
def bmiRisks (cfg : KeywordConfig) (hd : HealthData) : List RiskFactor :=
  if pyTruthyQ hd.bmi then
    let b := hd.bmi.getD 0
    let ob := cfg.obesity_bmi.getD 30
    let uw := cfg.underweight_bmi.getD (37/2)
    if b ≥ ob then
      [⟨"obesity", if b ≥ ob + 5 then "high" else "medium", .num b, .num ob,
        cfg.obesity_lifestyle⟩]
    else if b < uw then
      [⟨"underweight", "medium", .num b, .num uw, cfg.underweight_lifestyle⟩]
    else []
  else []

/-- The blood-pressure block of analyze_risk_factors. -/
def bpRisks (cfg : KeywordConfig) (hd : HealthData) : List RiskFactor :=
  if pyTruthyZ hd.systolic_bp && pyTruthyZ hd.diastolic_bp then
    let s := hd.systolic_bp.getD 0
    let d := hd.diastolic_bp.getD 0
    let st := cfg.hypertension_systolic.getD 140
    let dt := cfg.hypertension_diastolic.getD 90
    if (s : ℚ) ≥ st ∨ (d : ℚ) ≥ dt then
      [⟨"hypertension", if (s : ℚ) ≥ st + 20 then "high" else "medium",
        .str (toString s ++ "/" ++ toString d),
        .str (pyFloatStr st ++ "/" ++ pyFloatStr dt),
        cfg.hypertension_lifestyle⟩]
    else []
  else []

/-- The cholesterol block of analyze_risk_factors. -/
def cholesterolRisks (cfg : KeywordConfig) (hd : HealthData) : List RiskFactor :=
  if pyTruthyZ hd.total_cholesterol then
    let tc := hd.total_cholesterol.getD 0
    let ct := cfg.cholesterol_total.getD 240
    if (tc : ℚ) > ct then
      [⟨"high_cholesterol", if (tc : ℚ) > ct + 60 then "high" else "medium",
        .num tc, .num ct, cfg.cholesterol_lifestyle⟩]
    else []
  else []

/-- The liver-enzyme block of analyze_risk_factors. -/
def liverRisks (cfg : KeywordConfig) (hd : HealthData) : List RiskFactor :=
  let astTh := cfg.liver_ast.getD 40
  let altTh := cfg.liver_alt.getD 40
  if pyTruthyGt hd.sgotast astTh || pyTruthyGt hd.sgptalt altTh then
    [⟨"liver_function_abnormal",
      if pyTruthyGt hd.sgotast (astTh * 2) || pyTruthyGt hd.sgptalt (altTh * 2) then "high"
      else "medium",
      .str ("AST: " ++ pyOptIntStr hd.sgotast ++ ", ALT: " ++ pyOptIntStr hd.sgptalt),
      .str ("AST: " ++ pyFloatStr astTh ++ ", ALT: " ++ pyFloatStr altTh),
      cfg.liver_lifestyle⟩]
  else []

/-- The exercise block of analyze_risk_factors; the guard is an
explicit is-not-None test, so a value of 0 is analyzed. -/
def exerciseRisks (cfg : KeywordConfig) (hd : HealthData) : List RiskFactor :=
  match hd.exercise_frequency with
  | none => []
  | some ef =>
      let et := cfg.sedentary_exercise.getD 3
      if (ef : ℚ) < et then
        [⟨"sedentary_lifestyle", "medium", .num ef, .num et, cfg.sedentary_lifestyle⟩]
      else []

/-- analyze_risk_factors: the five metric blocks in source order. -/
def analyzeRiskFactors (cfg : KeywordConfig) (hd : HealthData) : List RiskFactor :=
  bmiRisks cfg hd ++ bpRisks cfg hd ++ cholesterolRisks cfg hd
    ++ liverRisks cfg hd ++ exerciseRisks cfg hd

/-! ## pattern_service (claims C5, C10) -/

/-- A context value: a scalar or a flat list of scalars.  The
embedding restricts context values to these two shapes; a merge that
would create a Python nested list is outside the modelled value
domain and is reported as an error. -/
inductive CtxVal where
  | scalar (s : String)
  | vlist (l : List String)
deriving DecidableEq

/-- A context dict. -/
abbrev Context := List (String × CtxVal)

/-- The key list of a context dict. -/
def contextKeys (c : Context) : List String := c.map Prod.fst

/-- The merge of one value in _merge_contexts: onto an existing list,
list(set(old + [value])), which raises TypeError when the incoming
value is itself a list (lists are unhashable); onto an existing
scalar, the two-element list [old, value]. -/
def mergeValue (old incoming : CtxVal) : Except String CtxVal :=
  match old, incoming with
  | .vlist l, .scalar s => .ok (.vlist ((l ++ [s]).dedup))
  | .vlist _, .vlist _ => .error "TypeError: unhashable type: list"
  | .scalar s, .scalar t => .ok (.vlist [s, t])
  | .scalar _, .vlist _ => .error "unmodelled: nested list context value"

/-- The loop of _merge_contexts: each entry of the second dict is
merged into the accumulating copy of the first. -/
def mergeContextsFrom (merged : Context) : Context → Except String Context
  | [] => .ok merged
  | (k, v) :: rest => do
      let merged' ←
        match List.lookup k merged with
        | some old => do
            let nv ← mergeValue old v
            pure (dictSet k nv merged)
        | none => pure (merged ++ [(k, v)])
      mergeContextsFrom merged' rest

/-- _merge_contexts. -/
def mergeContexts (c1 c2 : Context) : Except String Context :=
  mergeContextsFrom c1 c2

/-- The pattern dict returned by _extract_pattern. -/
structure Observation where
  pattern_type : Option String
  entities : List String
  effect : Option String
  confidence : ℚ
  context : Context
  timestamp : String
deriving DecidableEq

/-- A stored pattern: the extracted fields plus the bookkeeping keys
added by _add_new_pattern. -/
structure Pattern where
  pattern_type : Option String
  entities : List String
  effect : Option String
  confidence : ℚ
  context : Context
  timestamp : String
  frequency : ℕ
  last_updated : String
  related_patterns : List String
deriving DecidableEq

/-- The data dict passed to learn_from_interaction, as read by
_extract_pattern. -/
structure ObservationData where
  interaction_type : Option String
  entities : Option (List String)
  effect : Option String
  confidence : Option ℚ
  context : Option Context
deriving DecidableEq

/-- _extract_pattern; the timestamp argument stands for
datetime.now().isoformat(). -/
def extractPattern (d : ObservationData) (now : String) : Observation :=
  ⟨d.interaction_type, d.entities.getD [], d.effect, d.confidence.getD 0,
   d.context.getD [], now⟩

/-- The entity term of _calculate_similarity:
len(set(a) & set(b)) / len(set(a) | set(b)), raising ZeroDivisionError
when both entity lists are empty. -/
def entitySimilarity (a b : List String) : Except String ℚ :=
  if ((a ++ b).dedup).isEmpty then .error "ZeroDivisionError: division by zero"
  else .ok (((a.dedup.filter (fun x => x ∈ b)).length : ℚ) / (((a ++ b).dedup).length : ℚ))

/-- _calculate_context_similarity: matching keys with equal values
over the union of keys, and 0.0 when both dicts are empty. -/
def calculateContextSimilarity (c1 c2 : Context) : ℚ :=
  if ((contextKeys c1 ++ contextKeys c2).dedup).isEmpty then 0
  else
    (((((contextKeys c1).dedup.filter (fun k => k ∈ contextKeys c2)).filter
        (fun k => List.lookup k c1 == List.lookup k c2)).length : ℚ)
      / (((contextKeys c1 ++ contextKeys c2).dedup).length : ℚ))

/-- _calculate_similarity: 0.4 * entity + 0.4 * effect + 0.2 * context. -/
def calculateSimilarity (p : Observation) (q : Pattern) : Except String ℚ := do
  let es ← entitySimilarity p.entities q.entities
  let eff : ℚ := if p.effect == q.effect then 1 else 0
  let cs := calculateContextSimilarity p.context q.context
  .ok ((4/10) * es + (4/10) * eff + (2/10) * cs)

/-- The filter loop of _find_similar_patterns over a bucket of
(pattern_id, pattern) pairs in insertion order, keeping patterns whose
similarity reaches the confidence threshold 0.7. -/
def findSimilarFrom (p : Observation) :
    List (String × Pattern) → Except String (List (String × Pattern))
  | [] => .ok []
  | (pid, q) :: rest => do
      let s ← calculateSimilarity p q
      let more ← findSimilarFrom p rest
      .ok (if s ≥ 7/10 then (pid, q) :: more else more)

/-- _find_similar_patterns: filter then sort by confidence,
descending; the identifiers are carried so the caller can write the
strengthened pattern back. -/
def findSimilarPatterns (p : Observation) (bucket : List (String × Pattern)) :
    Except String (List (String × Pattern)) := do
  let similar ← findSimilarFrom p bucket
  .ok (sortDescBy (fun e => e.2.confidence) similar)

/-- _strengthen_pattern: weighted confidence update with the old
frequency, frequency increment, then context merge. -/
def strengthenPattern (existing : Pattern) (nw : Observation) : Except String Pattern := do
  let ctx ← mergeContexts existing.context nw.context
  .ok { existing with
        confidence :=
          (existing.confidence * existing.frequency + nw.confidence)
            / ((existing.frequency : ℚ) + 1),
        frequency := existing.frequency + 1,
        context := ctx }

/-- _add_new_pattern: the new id is type underscore bucket-size and
the stored pattern gains frequency 1, last_updated and an empty
related_patterns list. -/
def addNewPattern (bucket : List (String × Pattern)) (p : Observation) (now : String) :
    List (String × Pattern) :=
  bucket ++ [(pyOptStr p.pattern_type ++ "_" ++ toString bucket.length,
    ⟨p.pattern_type, p.entities, p.effect, p.confidence, p.context, p.timestamp,
     1, now, []⟩)]

/-- The PatternService state: the patterns dict of four fixed buckets
and the feedback history. -/
structure PatternState where
  patterns : List (String × List (String × Pattern))
  feedback_history : List (Observation × String × String)
deriving DecidableEq

/-- The state built by PatternService.__init__ / initialize. -/
def initialPatternState : PatternState :=
  ⟨[("supplement_interactions", []), ("health_conditions", []),
    ("medication_interactions", []), ("temporal_patterns", [])], []⟩

/-- self.patterns[pattern_type]: a type that is not one of the four
bucket keys, or a missing interaction_type, raises KeyError. -/
def getBucket (ps : PatternState) (t : Option String) :
    Except String (List (String × Pattern)) :=
  match t with
  | none => .error "KeyError"
  | some key =>
      match List.lookup key ps.patterns with
      | some b => .ok b
      | none => .error "KeyError"

/-- Write one bucket back into the patterns dict. -/
def setBucket (ps : PatternState) (key : String) (b : List (String × Pattern)) :
    PatternState :=
  { ps with patterns := dictSet key b ps.patterns }

/-- In-place mutation of the matched pattern object inside its
bucket. -/
def updateBucketEntry (bucket : List (String × Pattern)) (pid : String) (p : Pattern) :
    List (String × Pattern) :=
  bucket.map (fun e => if e.1 = pid then (pid, p) else e)

/-- _record_feedback; an extracted pattern never carries the is_new
key, so pattern.get("is_new") is always falsy and the recorded action
is always the string strengthen. -/
def recordFeedback (ps : PatternState) (p : Observation) (now : String) : PatternState :=
  { ps with feedback_history := ps.feedback_history ++ [(p, now, "strengthen")] }

/-- learn_from_interaction: extract, find similar, strengthen the
best match or add a new pattern, then record feedback. -/
def learnFromInteraction (ps : PatternState) (d : ObservationData) (now : String) :
    Except String PatternState := do
  let pattern := extractPattern d now
  let key ←
    match pattern.pattern_type with
    | some k => Except.ok k
    | none => Except.error "KeyError"
  let bucket ← getBucket ps pattern.pattern_type
  let similar ← findSimilarPatterns pattern bucket
  match similar with
  | (pid, ex) :: _ => do
      let st ← strengthenPattern ex pattern
      .ok (recordFeedback (setBucket ps key (updateBucketEntry bucket pid st)) pattern now)
  | [] =>
      .ok (recordFeedback (setBucket ps key (addNewPattern bucket pattern now)) pattern now)

/-! ## Session model (models/session.py) and SessionManager
(claims C3, C4, and the session shape used by C7 and C8) -/

/-- A Question as issued by the question generator. -/
structure Question where
  id : String
  text : String
  context : String
  priority : ℤ
  evidence : Option (List String)
  interaction_check : Bool
deriving DecidableEq

/-- An Answer; the timestamp is an abstract clock value. -/
structure Answer where
  question_id : String
  answer_text : String
  timestamp : ℕ
deriving DecidableEq

/-- A Recommendation held in an AnalysisResult. -/
structure Recommendation where
  rec_type : String
  name : String
  confidence : ℚ
  reason : String
  evidence : Option (List String)
deriving DecidableEq

/-- The AnalysisResult aggregate of models/session.py; the List[Dict]
fields whose contents no modelled code inspects are opaque payload
lists. -/
structure AnalysisResult where
  primary_concerns : List String
  recommendations : List Recommendation
  lifestyle_suggestions : List String
  interaction_warnings : List InteractionWarning
  required_checks : List String
  evidence : List String
  confidence_levels : List (String × ℚ)
  follow_up_questions : List Question
deriving DecidableEq

/-- The empty AnalysisResult (all fields default). -/
def emptyAnalysisResult : AnalysisResult := ⟨[], [], [], [], [], [], [], []⟩

/-- The dynamically typed current_step field: declared int in the
model, but SessionManager.update_session_status assigns the step name
string to it. -/
inductive StepValue where
  | intval (n : ℤ)
  | strval (s : String)
deriving DecidableEq

/-- The Session model. -/
structure Session where
  id : String
  status : String
  current_step : StepValue
  total_expected_steps : ℤ
  health_data : HealthPayload
  current_questions : List Question
  answers : List Answer
  analysis_results : Option AnalysisResult
  created_at : ℕ
  updated_at : ℕ
deriving DecidableEq

/-- Session.update_status. -/
def sessionUpdateStatus (s : Session) (newStatus : String) (now : ℕ) : Session :=
  { s with status := newStatus, updated_at := now }

/-- Session.add_answer: appends the answer and increments
current_step by one; incrementing a string-valued step would raise
TypeError. -/
def sessionAddAnswer (s : Session) (a : Answer) (now : ℕ) : Except String Session :=
  match s.current_step with
  | .intval n =>
      .ok { s with
            answers := s.answers ++ [a],
            current_step := .intval (n + 1),
            updated_at := now }
  | .strval _ => .error "TypeError: can only concatenate str to str"

/-- Session.update_analysis. -/
def sessionUpdateAnalysis (s : Session) (ar : AnalysisResult) (now : ℕ) : Session :=
  { s with analysis_results := some ar, updated_at := now }

/-- Session.update_questions. -/
def sessionUpdateQuestions (s : Session) (qs : List Question) (now : ℕ) : Session :=
  { s with current_questions := qs, updated_at := now }

/-- The SessionManager dict of live sessions. -/
abbrev SessionStore := List (String × Session)

/-- SessionManager.update_session_status.  The SessionStatus enum the
manager imports is defined nowhere in the repository; modelled from
the spec: a status is one of the state-name strings.  The optional
step argument, when truthy, is assigned to current_step. -/
def managerUpdateSessionStatus (st : SessionStore) (sid status : String)
    (step : Option String) (now : ℕ) : SessionStore × Option Session :=
  match List.lookup sid st with
  | none => (st, none)
  | some s =>
      let s1 := { s with status := status, updated_at := now }
      let s2 :=
        match step with
        | some v => if v = "" then s1 else { s1 with current_step := .strval v }
        | none => s1
      (dictSet sid s2 st, some s2)

/-- SessionManager.add_analysis_result. -/
def managerAddAnalysisResult (st : SessionStore) (sid : String) (ar : AnalysisResult)
    (now : ℕ) : SessionStore × Option Session :=
  match List.lookup sid st with
  | none => (st, none)
  | some s =>
      let s1 := { s with analysis_results := some ar, updated_at := now }
      (dictSet sid s1 st, some s1)

/-- SessionManager.add_questions: extends the question list and
unconditionally sets the waiting_answer status. -/
def managerAddQuestions (st : SessionStore) (sid : String) (qs : List Question)
    (now : ℕ) : SessionStore × Option Session :=
  match List.lookup sid st with
  | none => (st, none)
  | some s =>
      let s1 := { s with
                  current_questions := s.current_questions ++ qs,
                  updated_at := now,
                  status := "waiting_answer" }
      (dictSet sid s1 st, some s1)

/-- SessionManager.add_answer: appends the answer; current_step is
not touched. -/
def managerAddAnswer (st : SessionStore) (sid : String) (a : Answer)
    (now : ℕ) : SessionStore × Option Session :=
  match List.lookup sid st with
  | none => (st, none)
  | some s =>
      let s1 := { s with answers := s.answers ++ [a], updated_at := now }
      (dictSet sid s1 st, some s1)

/-! ## answer_processor._build_answer_context and
_determine_answer_type (claim C7) -/

/-- The context dict built by _build_answer_context.  Every key is
always present; question_context holds None when no current question
matches the answered question_id. -/
structure AnswerContext where
  session_status : String
  current_step : StepValue
  question_context : Option String
  previous_answers : List Answer
  current_analysis : Option AnalysisResult
deriving DecidableEq

/-- _build_answer_context. -/
def buildAnswerContext (s : Session) (a : Answer) : AnswerContext :=
  let question := s.current_questions.find? (fun q => q.id == a.question_id)
  ⟨s.status, s.current_step,
   question.map (fun q => q.context),
   s.answers.filter (fun x => x.question_id ≠ a.question_id),
   s.analysis_results⟩

/-- _determine_answer_type: context.get("question_context", "")
returns the stored value, so a stored None reaches the startswith
calls and raises AttributeError; otherwise the prefix decides the
classification, falling back to general. -/
def determineAnswerType (ctx : AnswerContext) : Except String String :=
  match ctx.question_context with
  | none => .error "AttributeError: NoneType has no attribute startswith"
  | some qc =>
      .ok (if strStartsWith qc "health_risk_" then "health_risk"
           else if strStartsWith qc "lifestyle_" then "lifestyle"
           else if strStartsWith qc "medication_" then "medication"
           else "general")

/-! ## question_generator.generate_questions (claim C8)

uuid.uuid4() is modelled by an id supply together with the index of
the next fresh identifier; each Question construction consumes one
identifier, as each evaluates uuid4 once. -/

/-- warning[key] as _generate_interaction_questions evaluates it.
The warnings generate_questions passes are the
AnalysisResult.interaction_warnings, pydantic InteractionWarning
model instances (built as models in EnhancedHealthAnalyzer.analyze),
and pydantic BaseModel defines no item access, so any subscript on
them raises TypeError. -/
def subscriptInteractionWarning (w : InteractionWarning) (key : String) :
    Except String String :=
  .error "TypeError: InteractionWarning object is not subscriptable"

/-- _generate_interaction_questions: the loop body subscripts each
warning (source, then severity inside the Question construction), so
on model-instance warnings the first iteration raises before any uuid
is drawn; the rest of the body is transcribed as it would run on
plain dicts. -/
def generateInteractionQuestions (ids : ℕ → String) (k : ℕ) :
    List InteractionWarning → Except String (List Question × ℕ)
  | [] => .ok ([], k)
  | w :: rest => do
      let source ← subscriptInteractionWarning w "source"
      if strStartsWith source "medication_" then do
        let med := strReplace source "medication_" ""
        let severity ← subscriptInteractionWarning w "severity"
        let q : Question :=
          ⟨ids k, med ++ "을(를) 복용하신지 얼마나 되셨나요? 현재 복용량은 어느 정도인가요?",
           "medication_interaction_" ++ med,
           if severity == "high" then 2 else 1, none, true⟩
        let (more, fin) ← generateInteractionQuestions ids (k + 1) rest
        .ok (q :: more, fin)
      else if strStartsWith source "condition_" then do
        let cond := strReplace source "condition_" ""
        let severity ← subscriptInteractionWarning w "severity"
        let q : Question :=
          ⟨ids k, cond ++ " 관련하여 현재 어떤 치료를 받고 계신가요?",
           "condition_interaction_" ++ cond,
           if severity == "high" then 2 else 1, none, true⟩
        let (more, fin) ← generateInteractionQuestions ids (k + 1) rest
        .ok (q :: more, fin)
      else
        generateInteractionQuestions ids k rest

/-- _generate_condition_questions: one store query per condition; a
question is only created when documents came back. -/
def generateConditionQuestions (ids : ℕ → String) (k : ℕ) (store : Store) :
    List String → Except String (List Question × ℕ)
  | [] => .ok ([], k)
  | cond :: rest => do
      let res ← store (cond ++ " patient assessment questions") "health_data" 2
      if res.documents.isEmpty then
        generateConditionQuestions ids k store rest
      else do
        let (more, fin) ← generateConditionQuestions ids (k + 1) store rest
        .ok (⟨ids k, cond ++ " 진단을 받으신지 얼마나 되셨나요?",
              "condition_history_" ++ cond, 1, some res.metadatas, false⟩ :: more, fin)

/-- _generate_lifestyle_questions. -/
def generateLifestyleQuestions (ids : ℕ → String) (k : ℕ) (lf : Lifestyle) :
    List Question × ℕ :=
  let (l1, k1) :=
    if lf.exercise_frequency.getD 0 < 3 then
      ([(⟨ids k, "운동하기 어려운 특별한 이유가 있으신가요?", "lifestyle_exercise_barrier",
          1, none, false⟩ : Question)], k + 1)
    else ([], k)
  let (l2, k2) :=
    if lf.sleep_hours.getD 0 < 7 then
      ([(⟨ids k1, "수면의 질은 어떠신가요? 자주 깨시거나 잠들기 어려운가요?",
          "lifestyle_sleep_quality", 1, none, false⟩ : Question)], k1 + 1)
    else ([], k1)
  let (l3, k3) :=
    if lf.stress_level.getD 0 > 3 then
      ([(⟨ids k2, "스트레스 해소를 위해 현재 하고 계신 활동이 있으신가요?",
          "lifestyle_stress_management", 1, none, false⟩ : Question)], k2 + 1)
    else ([], k2)
  (l1 ++ l2 ++ l3, k3)

/-- generate_questions: interaction, condition and lifestyle sources
in order, then a stable descending sort by priority. -/
def generateQuestions (ids : ℕ → String) (k : ℕ) (store : Store) (s : Session) :
    Except String (List Question × ℕ) := do
  let (qs1, k1) ←
    (match s.analysis_results with
    | some ar =>
        if ar.interaction_warnings.isEmpty then Except.ok (([] : List Question), k)
        else generateInteractionQuestions ids k ar.interaction_warnings
    | none => Except.ok (([] : List Question), k))
  let (qs2, k2) ←
    if (chronicConditionsOf s.health_data).isEmpty then Except.ok ([], k1)
    else generateConditionQuestions ids k1 store (chronicConditionsOf s.health_data)
  let (qs3, k3) :=
    match s.health_data.lifestyle with
    | some lf => generateLifestyleQuestions ids k2 lf
    | none => ([], k2)
  .ok (sortDescBy (fun q => q.priority) (qs1 ++ qs2 ++ qs3), k3)

/-- The identity-relevant content of a Question: every field except
the freshly generated uuid id. -/
def questionContent (q : Question) : String × String × ℤ × Option (List String) × Bool :=
  (q.text, q.context, q.priority, q.evidence, q.interaction_check)

/-! ## Concrete inputs used by the closed theorems and witnesses -/

/-- A supplement recommendation whose Chroma score has three decimal
places. -/
def recVitaminC : RecDict := ⟨some "supplement", some "VitaminC", some (333/1000)⟩

/-- A snapshot with BMI 32 and no other metric set. -/
def hdBmi32 : HealthData := ⟨some 32, none, none, none, none, none, none⟩

/-- A snapshot with BMI 36 and no other metric set. -/
def hdBmi36 : HealthData := ⟨some 36, none, none, none, none, none, none⟩

/-- A store answering every query with one strong hit. -/
def sampleStore : Store := fun _ _ _ => .ok ⟨["doc1"], ["meta1"], [17/20]⟩

/-- One recommendation named Omega-3. -/
def sampleRecs : List RecName := [⟨some "Omega-3"⟩]

/-- A health payload with aspirin as the only medication. -/
def samplePayload : HealthPayload := ⟨some ⟨["aspirin"], []⟩, none, none⟩

/-- The warning analyze_interactions produces for sampleStore,
sampleRecs and samplePayload. -/
def sampleWarning : InteractionWarning :=
  ⟨"medication_aspirin", some "Omega-3", "high",
   "Omega-3과(와) aspirin 간의 상호작용 가능성이 있습니다.", ["meta1"]⟩

/-- A store that raises on the warfarin pair and answers every other
query with one hit. -/
def failingStore : Store := fun q _ _ =>
  if q = "Omega-3 interaction with warfarin" then .error "store down"
  else .ok ⟨["doc1"], ["meta1"], [9/10]⟩

/-- A health payload with two medications, the second of which makes
failingStore raise. -/
def twoMedsPayload : HealthPayload := ⟨some ⟨["aspirin", "warfarin"], []⟩, none, none⟩

/-- An observation with an empty entity list. -/
def emptyEntitiesData : ObservationData :=
  ⟨some "supplement_interactions", some [], none, some (1/2), some []⟩

/-- A freshly created session (status created, step 0). -/
def freshSession : Session :=
  ⟨"s1", "created", .intval 0, 5, ⟨none, none, none⟩, [], [], none, 0, 0⟩

/-- A session that has reached the terminal completed status. -/
def completedSession : Session :=
  ⟨"s2", "completed", .intval 3, 5, ⟨none, none, none⟩, [], [], none, 0, 0⟩

/-- A sample answer. -/
def sampleAnswer : Answer := ⟨"q1", "yes", 1⟩

/-- An answer whose question_id matches no current question. -/
def orphanAnswer : Answer := ⟨"q-unknown", "maybe", 2⟩

/-- A session waiting for an answer to the single question q1. -/
def waitingSession : Session :=
  ⟨"s3", "waiting_answer", .intval 1, 5, ⟨none, none, none⟩,
   [⟨"q1", "How often do you exercise?", "health_risk_obesity", 1, none, false⟩],
   [], some emptyAnalysisResult, 0, 0⟩

/-- An analysis result carrying one high medication warning. -/
def warningAnalysis : AnalysisResult :=
  { emptyAnalysisResult with
    interaction_warnings :=
      [⟨"medication_aspirin", some "Omega-3", "high", "d", []⟩] }

/-- A session whose analysis result carries one interaction warning
and whose health payload adds no further question source. -/
def warningSession : Session :=
  ⟨"s4", "analyzing", .intval 0, 5, ⟨none, none, none⟩, [], [],
   some warningAnalysis, 0, 0⟩

/-- A session with an (empty) analysis result whose only question
source is a lifestyle gap: exercise once a week, enough sleep, low
stress. -/
def lifestyleSession : Session :=
  ⟨"s5", "analyzing", .intval 0, 5,
   ⟨none, some ⟨some 1, some 8, some 1, none, none⟩, none⟩,
   [], [], some emptyAnalysisResult, 0, 0⟩

/-- A deterministic id supply standing for the uuid4 stream. -/
def uuidStream : ℕ → String := fun n => "uuid-" ++ toString n

/-- A store with no documents at all. -/
def emptyStore : Store := fun _ _ _ => .ok ⟨[], [], []⟩

/-! # Theorems -/

/-- C9: a snapshot whose only abnormal metric is BMI 32 against the
default obesity threshold 30 yields exactly one risk factor, obesity
with severity medium; BMI 36 escalates it to high, and in general the
medium-to-high boundary for BMI sits at threshold + 5 = 35. -/
theorem c9_bmi_obesity_escalation :
    analyzeRiskFactors defaultConfig hdBmi32 =
      [⟨"obesity", "medium", RFValue.num 32, RFValue.num 30, []⟩] ∧
    analyzeRiskFactors defaultConfig hdBmi36 =
      [⟨"obesity", "high", RFValue.num 36, RFValue.num 30, []⟩] ∧
    ∀ b : ℚ, 30 ≤ b →
      analyzeRiskFactors defaultConfig ⟨some b, none, none, none, none, none, none⟩ =
        [⟨"obesity", if 35 ≤ b then "high" else "medium",
          RFValue.num b, RFValue.num 30, []⟩] := by
  have key : ∀ b : ℚ, 30 ≤ b →
      analyzeRiskFactors defaultConfig ⟨some b, none, none, none, none, none, none⟩ =
        [⟨"obesity", if 35 ≤ b then "high" else "medium",
          RFValue.num b, RFValue.num 30, []⟩] := by
    intro b hb
    have hbne : b ≠ 0 := by
      intro h
      rw [h] at hb
      norm_num at hb
    simp [analyzeRiskFactors, bmiRisks, bpRisks, cholesterolRisks, liverRisks,
      exerciseRisks, pyTruthyQ, pyTruthyZ, pyTruthyGt, defaultConfig,
      bne_iff_ne, hbne, ge_iff_le, hb]
    norm_num
  refine ⟨?_, ?_, key⟩
  · have h := key 32 (by norm_num)
    rw [show hdBmi32 = ⟨some 32, none, none, none, none, none, none⟩ from rfl, h]
    norm_num
  · have h := key 36 (by norm_num)
    rw [show hdBmi36 = ⟨some 36, none, none, none, none, none, none⟩ from rfl, h]
    norm_num

/-- C9 witness: the boundary statement applied at BMI 33. -/
theorem c9_bmi_obesity_escalation_witness :
    analyzeRiskFactors defaultConfig ⟨some 33, none, none, none, none, none, none⟩ =
      [⟨"obesity", if 35 ≤ (33 : ℚ) then "high" else "medium",
        RFValue.num 33, RFValue.num 30, []⟩] :=
  c9_bmi_obesity_escalation.2.2 33 (by norm_num)

/-- A list of rationals all lying in the unit interval has a
nonnegative sum bounded by its length. -/
theorem list_sum_unit_bounds (l : List ℚ) (h : ∀ x ∈ l, 0 ≤ x ∧ x ≤ 1) :
    0 ≤ l.sum ∧ l.sum ≤ l.length := by
  induction l with
  | nil => simp
  | cons a t ih =>
      have ha := h a (by simp)
      have ht := ih (fun x hx => h x (by simp [hx]))
      simp only [List.sum_cons, List.length_cons]
      refine ⟨by linarith [ha.1, ht.1], ?_⟩
      push_cast
      linarith [ha.2, ht.2]

/-- The evidence boost is a mean of unit-interval scores, hence lies
in the unit interval itself. -/
theorem evidenceBoost_bounds (rec : RecDict) (ev : List EvDict)
    (h : ∀ e ∈ ev, 0 ≤ e.relevance_score.getD 0 ∧ e.relevance_score.getD 0 ≤ 1) :
    0 ≤ evidenceBoost rec ev ∧ evidenceBoost rec ev ≤ 1 := by
  unfold evidenceBoost
  by_cases he : (ev.filter (fun e => e.etype == rec.rtype)).isEmpty
  · simp [he]
  · simp only [he, Bool.false_eq_true, if_false]
    have hlen : 0 < (ev.filter (fun e => e.etype == rec.rtype)).length := by
      cases hl : ev.filter (fun e => e.etype == rec.rtype) with
      | nil => rw [hl] at he; simp at he
      | cons a t => simp
    have hmap : ∀ x ∈ (ev.filter (fun e => e.etype == rec.rtype)).map
        (fun e => e.relevance_score.getD 0), 0 ≤ x ∧ x ≤ 1 := by
      intro x hx
      rcases List.mem_map.mp hx with ⟨e, he', rfl⟩
      exact h e (List.mem_of_mem_filter he')
    have hsum := list_sum_unit_bounds _ hmap
    rw [List.length_map] at hsum
    have hlenq : (0 : ℚ) < (ev.filter (fun e => e.etype == rec.rtype)).length := by
      exact_mod_cast hlen
    constructor
    · exact div_nonneg hsum.1 (le_of_lt hlenq)
    · rw [div_le_one hlenq]
      exact hsum.2

/-- Round-half-to-even returns the floor or its successor, and in the
latter case the fractional part was at least one half. -/
theorem roundHalfEven_cases (q : ℚ) :
    roundHalfEven q = ⌊q⌋ ∨ (roundHalfEven q = ⌊q⌋ + 1 ∧ 1/2 ≤ q - ⌊q⌋) := by
  unfold roundHalfEven
  split_ifs with h1 h2 h3
  · exact Or.inl rfl
  · exact Or.inr ⟨rfl, le_of_lt h2⟩
  · exact Or.inl rfl
  · exact Or.inr ⟨rfl, le_of_not_lt h1⟩

/-- Rounding to two decimals keeps a value inside [0, 0.95]. -/
theorem round2_bounds (q : ℚ) (h0 : 0 ≤ q) (h1 : q ≤ 95/100) :
    0 ≤ round2 q ∧ round2 q ≤ 95/100 := by
  unfold round2
  have hq0 : (0 : ℚ) ≤ q * 100 := by positivity
  have hq95 : q * 100 ≤ 95 := by linarith
  have hfl : (0 : ℤ) ≤ ⌊q * 100⌋ := Int.floor_nonneg.mpr hq0
  have hflq : (0 : ℚ) ≤ (⌊q * 100⌋ : ℚ) := by exact_mod_cast hfl
  have hfloor : (⌊q * 100⌋ : ℚ) ≤ q * 100 := Int.floor_le _
  rcases roundHalfEven_cases (q * 100) with h | ⟨h, hr⟩
  · rw [h]
    constructor
    · positivity
    · rw [div_le_div_iff₀ (by norm_num) (by norm_num)]
      nlinarith
  · rw [h]
    have hlt : (⌊q * 100⌋ : ℚ) < 95 := by linarith
    have hle94 : ⌊q * 100⌋ ≤ 94 := by
      have : ⌊q * 100⌋ < 95 := by exact_mod_cast hlt
      omega
    have hle94q : (⌊q * 100⌋ : ℚ) ≤ 94 := by exact_mod_cast hle94
    constructor
    · push_cast
      positivity
    · rw [div_le_div_iff₀ (by norm_num) (by norm_num)]
      push_cast
      nlinarith

/-- An element of a dict after an assignment is the assigned pair or
was already present. -/
theorem dictSet_mem [DecidableEq α] {p : α × β} {k : α} {v : β} {l : List (α × β)}
    (h : p ∈ dictSet k v l) : p = (k, v) ∨ p ∈ l := by
  induction l with
  | nil => simpa [dictSet] using h
  | cons a t ih =>
      rcases a with ⟨k', v'⟩
      by_cases hk : k' = k
      · rw [dictSet, if_pos hk] at h
        rcases List.mem_cons.mp h with h | h
        · exact Or.inl h
        · exact Or.inr (List.mem_cons_of_mem _ h)
      · rw [dictSet, if_neg hk] at h
        rcases List.mem_cons.mp h with h | h
        · exact Or.inr (by simp [h])
        · rcases ih h with h | h
          · exact Or.inl h
          · exact Or.inr (List.mem_cons_of_mem _ h)

/-- Every entry of the confidence_levels dict comes from the
accumulator or from some processed recommendation. -/
theorem confidenceLevels_fold_mem (ev : List EvDict) (recs : List RecDict) :
    ∀ (acc : List (Option String × ℚ)) (p : Option String × ℚ),
      p ∈ recs.foldl
        (fun acc rec => dictSet rec.name (round2 (finalConfidence rec ev)) acc) acc →
      p ∈ acc ∨ ∃ r ∈ recs, p = (r.name, round2 (finalConfidence r ev)) := by
  induction recs with
  | nil =>
      intro acc p hp
      exact Or.inl (by simpa using hp)
  | cons r t ih =>
      intro acc p hp
      simp only [List.foldl_cons] at hp
      rcases ih _ p hp with h | ⟨r', hr', hpr⟩
      · rcases dictSet_mem h with h | h
        · exact Or.inr ⟨r, by simp, h⟩
        · exact Or.inl h
      · exact Or.inr ⟨r', by simp [hr'], hpr⟩

/-- C1 counterexample: a recommendation whose store score is 0.333
and no matching evidence.  The spec formula gives 0.333, but the code
stores round(0.333, 2) = 0.33, so the stored confidence level does not
equal min(0.95, base_confidence + evidence_boost*0.2). -/
theorem c1_confidence_rounding_counterexample :
    calculateConfidenceLevels [recVitaminC] [] = [(some "VitaminC", 33/100)] ∧
    specConfidenceFormula recVitaminC [] = 333/1000 ∧
    (33/100 : ℚ) ≠ specConfidenceFormula recVitaminC [] := by
  refine ⟨?_, ?_, ?_⟩
  · simp only [calculateConfidenceLevels, List.foldl_cons, List.foldl_nil, dictSet]
    norm_num [finalConfidence, evidenceBoost, recVitaminC, round2, roundHalfEven]
  · norm_num [specConfidenceFormula, evidenceBoost, recVitaminC]
  · norm_num [specConfidenceFormula, evidenceBoost, recVitaminC]

/-- C1 amended: every stored confidence level equals the rounding to
two decimals of the spec formula min(0.95, base_confidence +
evidence_boost*0.2) for the recommendation it belongs to, and, when
the base confidence and every relevance score lie in [0,1], every
stored level lies in [0, 0.95]. -/
theorem c1_confidence_levels_amended (recs : List RecDict) (ev : List EvDict)
    (hbase : ∀ r ∈ recs, 0 ≤ r.confidence.getD (1/2) ∧ r.confidence.getD (1/2) ≤ 1)
    (hev : ∀ e ∈ ev, 0 ≤ e.relevance_score.getD 0 ∧ e.relevance_score.getD 0 ≤ 1)
    (p : Option String × ℚ) (hp : p ∈ calculateConfidenceLevels recs ev) :
    (∃ r ∈ recs, p.1 = r.name ∧ p.2 = round2 (specConfidenceFormula r ev)) ∧
      0 ≤ p.2 ∧ p.2 ≤ 95/100 := by
  rcases confidenceLevels_fold_mem ev recs [] p hp with h | ⟨r, hr, hpr⟩
  · simp at h
  have hb := hbase r hr
  have hboost := evidenceBoost_bounds r ev hev
  have hmul : 0 ≤ evidenceBoost r ev * (2/10) :=
    mul_nonneg hboost.1 (by norm_num)
  have h0 : 0 ≤ finalConfidence r ev := by
    unfold finalConfidence
    exact le_min (by norm_num) (by linarith [hb.1])
  have h95 : finalConfidence r ev ≤ 95/100 := min_le_left _ _
  have hbounds := round2_bounds _ h0 h95
  refine ⟨⟨r, hr, ?_, ?_⟩, ?_, ?_⟩
  · rw [hpr]
  · rw [hpr]
    rfl
  · rw [hpr]
    exact hbounds.1
  · rw [hpr]
    exact hbounds.2

/-- C1 witness: the amended statement applied to the VitaminC
recommendation with no evidence. -/
theorem c1_confidence_levels_amended_witness :
    (∃ r ∈ [recVitaminC], (some "VitaminC") = r.name ∧
        (33/100 : ℚ) = round2 (specConfidenceFormula r [])) ∧
      (0 : ℚ) ≤ 33/100 ∧ (33/100 : ℚ) ≤ 95/100 :=
  c1_confidence_levels_amended [recVitaminC] []
    (by
      intro r hr
      rw [List.mem_singleton] at hr
      subst hr
      norm_num [recVitaminC])
    (by intro e he; simp at he)
    (some "VitaminC", 33/100)
    (by
      simp only [calculateConfidenceLevels, List.foldl_cons, List.foldl_nil, dictSet]
      norm_num [finalConfidence, evidenceBoost, recVitaminC, round2, roundHalfEven])

/-- Bind on a successful Except applies the continuation. -/
@[simp] theorem except_bind_ok (a : α) (f : α → Except ε β) :
    (Except.ok a >>= f : Except ε β) = f a := rfl

/-- Bind on a failed Except propagates the error. -/
@[simp] theorem except_bind_error (e : ε) (f : α → Except ε β) :
    (Except.error e >>= f : Except ε β) = Except.error e := rfl

/-- Pure for Except is ok. -/
@[simp] theorem except_pure_eq (a : α) : (pure a : Except ε α) = Except.ok a := rfl

/-- The warning loop of _determine_required_checks is exactly the
high-severity warnings mapped to their check strings. -/
theorem warningChecks_eq (ws : List InteractionWarning) :
    warningChecks ws = (ws.filter (fun w => w.severity == "high")).map warningCheck := by
  induction ws with
  | nil => rfl
  | cons w t ih =>
      cases h : (w.severity == "high") with
      | true => simp [warningChecks, List.filter_cons, h, ih]
      | false => simp [warningChecks, List.filter_cons, h, ih]

/-- C2: whenever the analyzer returns a result, the required_checks
list is exactly the check string of every high-severity warning (in
order) followed by the health-based checks; in particular every
high-severity warning contributes a check referencing its target and
source verbatim, and warnings of other severities contribute
nothing. -/
theorem c2_high_warning_required_checks (store : Store) (recs : List RecName)
    (h : HealthPayload) (ws : List InteractionWarning) (checks : List String)
    (heq : analyzeWarningsAndChecks store recs h = .ok (ws, checks)) :
    checks = (ws.filter (fun w => w.severity == "high")).map warningCheck
      ++ determineRequiredChecks h [] ∧
    ∀ w ∈ ws, w.severity = "high" → warningCheck w ∈ checks := by
  have hch : checks = determineRequiredChecks h ws := by
    unfold analyzeWarningsAndChecks at heq
    cases hai : analyzeInteractions store recs h with
    | error e =>
        rw [hai] at heq
        simp at heq
    | ok ws' =>
        rw [hai] at heq
        simp at heq
        obtain ⟨h1, h2⟩ := heq
        rw [← h2, h1]
  have hstruct : checks =
      (ws.filter (fun w => w.severity == "high")).map warningCheck
        ++ determineRequiredChecks h [] := by
    rw [hch]
    unfold determineRequiredChecks
    rw [warningChecks_eq]
    simp [warningChecks, List.append_assoc]
  refine ⟨hstruct, ?_⟩
  intro w hw hsev
  rw [hstruct]
  refine List.mem_append_left _ ?_
  exact List.mem_map.mpr ⟨w, List.mem_filter.mpr ⟨hw, by simp [hsev]⟩, rfl⟩

/-- C2 witness: the sample store yields the high Omega-3/aspirin
warning and its check string is in the returned required_checks. -/
theorem c2_high_warning_required_checks_witness :
    warningCheck sampleWarning ∈ [warningCheck sampleWarning] :=
  (c2_high_warning_required_checks sampleStore sampleRecs samplePayload
    [sampleWarning] [warningCheck sampleWarning]
    (by
      norm_num [analyzeWarningsAndChecks, analyzeInteractions, medicationWarnings,
        conditionWarnings, sampleStore, sampleRecs, samplePayload, sampleWarning,
        medicationsOf, chronicConditionsOf, headDistance,
        determineRequiredChecks, warningChecks, glucoseFastingOf, pyOptStr]
      decide)).2
    sampleWarning (by simp) rfl

/-- One recommendation contributes only warnings whose severity is
high or medium through the medication loop. -/
theorem medicationWarnings_severity (store : Store) (nm : Option String)
    (meds : List String) (ws : List InteractionWarning)
    (heq : medicationWarnings store nm meds = .ok ws) :
    ∀ w ∈ ws, w.severity = "high" ∨ w.severity = "medium" := by
  induction meds generalizing ws with
  | nil =>
      unfold medicationWarnings at heq
      simp at heq
      subst heq
      intro w hw
      simp at hw
  | cons med rest ih =>
      unfold medicationWarnings at heq
      cases hs : store (pyOptStr nm ++ " interaction with " ++ med) "interactions" 2 with
      | error e => rw [hs] at heq; simp at heq
      | ok res =>
          rw [hs] at heq
          simp only [except_bind_ok] at heq
          by_cases hd : res.documents.isEmpty
          · simp only [hd, if_true] at heq
            simp only [except_pure_eq, except_bind_ok] at heq
            cases hrest : medicationWarnings store nm rest with
            | error e => rw [hrest] at heq; simp at heq
            | ok more =>
                rw [hrest] at heq
                simp at heq
                subst heq
                intro w hw
                exact ih more hrest w hw
          · simp only [hd, Bool.false_eq_true, if_false] at heq
            cases hhd : headDistance res with
            | error e => rw [hhd] at heq; simp at heq
            | ok d =>
                rw [hhd] at heq
                simp only [except_bind_ok, except_pure_eq] at heq
                cases hrest : medicationWarnings store nm rest with
                | error e => rw [hrest] at heq; simp at heq
                | ok more =>
                    rw [hrest] at heq
                    simp at heq
                    subst heq
                    intro w hw
                    rcases List.mem_cons.mp hw with hw | hw
                    · subst hw
                      by_cases hgt : d > 8/10 <;> simp [hgt]
                    · exact ih more hrest w hw

/-- One recommendation contributes only warnings whose severity is
high or medium through the condition loop. -/
theorem conditionWarnings_severity (store : Store) (nm : Option String)
    (conds : List String) (ws : List InteractionWarning)
    (heq : conditionWarnings store nm conds = .ok ws) :
    ∀ w ∈ ws, w.severity = "high" ∨ w.severity = "medium" := by
  induction conds generalizing ws with
  | nil =>
      unfold conditionWarnings at heq
      simp at heq
      subst heq
      intro w hw
      simp at hw
  | cons cond rest ih =>
      unfold conditionWarnings at heq
      cases hs : store (pyOptStr nm ++ " risks with " ++ cond) "health_data" 2 with
      | error e => rw [hs] at heq; simp at heq
      | ok res =>
          rw [hs] at heq
          simp only [except_bind_ok] at heq
          by_cases hd : res.documents.isEmpty
          · simp only [hd, if_true] at heq
            simp only [except_pure_eq, except_bind_ok] at heq
            cases hrest : conditionWarnings store nm rest with
            | error e => rw [hrest] at heq; simp at heq
            | ok more =>
                rw [hrest] at heq
                simp at heq
                subst heq
                intro w hw
                exact ih more hrest w hw
          · simp only [hd, Bool.false_eq_true, if_false] at heq
            cases hhd : headDistance res with
            | error e => rw [hhd] at heq; simp at heq
            | ok d =>
                rw [hhd] at heq
                simp only [except_bind_ok, except_pure_eq] at heq
                cases hrest : conditionWarnings store nm rest with
                | error e => rw [hrest] at heq; simp at heq
                | ok more =>
                    rw [hrest] at heq
                    simp at heq
                    subst heq
                    intro w hw
                    rcases List.mem_cons.mp hw with hw | hw
                    · subst hw
                      by_cases hgt : d > 8/10 <;> simp [hgt]
                    · exact ih more hrest w hw

/-- C6 counterexample: with two medications where the second pair
lookup raises, the whole interaction analysis aborts with that error
instead of returning a degraded warning and the remaining results. -/
theorem c6_per_pair_failure_counterexample :
    analyzeInteractions failingStore sampleRecs twoMedsPayload = .error "store down" := by
  have e1 : ¬(("Omega-3" ++ " interaction with " ++ "aspirin" : String) =
      "Omega-3 interaction with warfarin") := by decide
  have e2 : ("Omega-3" ++ " interaction with " ++ "warfarin" : String) =
      "Omega-3 interaction with warfarin" := by decide
  norm_num [analyzeInteractions, medicationWarnings, failingStore, sampleRecs,
    twoMedsPayload, medicationsOf, headDistance, pyOptStr, e1, e2]

/-- C6 amended: _analyze_interactions has no per-pair degradation: a
successful analysis only ever contains warnings of severity high or
medium (never unknown, never an analysis-failed description), and a
failing pair lookup propagates its error, aborting the whole
analysis (shown by the counterexample). -/
theorem c6_no_degraded_warnings_amended (store : Store) (recs : List RecName)
    (h : HealthPayload) (ws : List InteractionWarning)
    (heq : analyzeInteractions store recs h = .ok ws) :
    ∀ w ∈ ws, w.severity = "high" ∨ w.severity = "medium" := by
  induction recs generalizing ws with
  | nil =>
      unfold analyzeInteractions at heq
      simp at heq
      subst heq
      intro w hw
      simp at hw
  | cons rec rest ih =>
      unfold analyzeInteractions at heq
      cases hmw : medicationWarnings store rec.name (medicationsOf h) with
      | error e => rw [hmw] at heq; simp at heq
      | ok mw =>
          rw [hmw] at heq
          simp only [except_bind_ok] at heq
          cases hcw : conditionWarnings store rec.name (chronicConditionsOf h) with
          | error e => rw [hcw] at heq; simp at heq
          | ok cw =>
              rw [hcw] at heq
              simp only [except_bind_ok] at heq
              cases hrest : analyzeInteractions store rest h with
              | error e => rw [hrest] at heq; simp at heq
              | ok more =>
                  rw [hrest] at heq
                  simp at heq
                  subst heq
                  intro w hw
                  rcases List.mem_append.mp hw with hw | hw
                  · exact medicationWarnings_severity store rec.name _ mw hmw w hw
                  · rcases List.mem_append.mp hw with hw | hw
                    · exact conditionWarnings_severity store rec.name _ cw hcw w hw
                    · exact ih more hrest w hw

/-- C6 witness: the amended statement applied to the successful
sample run, whose single warning has severity high. -/
theorem c6_no_degraded_warnings_amended_witness :
    sampleWarning.severity = "high" ∨ sampleWarning.severity = "medium" :=
  c6_no_degraded_warnings_amended sampleStore sampleRecs samplePayload
    [sampleWarning]
    (by
      norm_num [analyzeInteractions, medicationWarnings, conditionWarnings,
        sampleStore, sampleRecs, samplePayload, sampleWarning,
        medicationsOf, chronicConditionsOf, headDistance, pyOptStr]
      decide)
    sampleWarning (by simp)

/-- C3: the repository disagrees with itself about current_step.  The
Session model's own add_answer increments current_step by exactly 1,
as the claim states; but SessionManager.add_answer, which bypasses it,
records the answer without incrementing, and
SessionManager.update_session_status with a step argument overwrites
current_step with the step name string.  Evaluated at a fresh
session. -/
theorem c3_current_step_code_bug :
    sessionAddAnswer freshSession sampleAnswer 1 =
      .ok { freshSession with
            answers := [sampleAnswer], current_step := .intval 1, updated_at := 1 } ∧
    (managerAddAnswer [("s1", freshSession)] "s1" sampleAnswer 1).2 =
      some { freshSession with answers := [sampleAnswer], updated_at := 1 } ∧
    ((managerUpdateSessionStatus [("s1", freshSession)] "s1" "analyzing"
        (some "initial_analysis") 2).2.map Session.current_step) =
      some (.strval "initial_analysis") ∧
    (sessionUpdateStatus freshSession "analyzing" 3).current_step = .intval 0 ∧
    (sessionUpdateAnalysis freshSession emptyAnalysisResult 3).current_step = .intval 0 ∧
    (sessionUpdateQuestions freshSession [] 3).current_step = .intval 0 ∧
    ((managerAddQuestions [("s1", freshSession)] "s1" [] 3).2.map Session.current_step) =
      some (.intval 0) := by
  decide

/-- C4 counterexample: a session whose status is completed is freely
mutated afterwards: update_session_status moves it back to analyzing,
both in the returned session and in the stored one, and add_answer
appends to it. -/
theorem c4_terminal_state_counterexample :
    ((managerUpdateSessionStatus [("s2", completedSession)] "s2" "analyzing" none 7).2.map
        Session.status) = some "analyzing" ∧
    ((List.lookup "s2" (managerUpdateSessionStatus [("s2", completedSession)] "s2"
        "analyzing" none 7).1).map Session.status) = some "analyzing" ∧
    ((managerAddAnswer [("s2", completedSession)] "s2" sampleAnswer 8).2.map
        Session.answers) = some [sampleAnswer] := by
  decide

/-- C4 amended: the session manager performs no terminal-state check:
for any stored session, whatever its status (completed and failed
included), update_session_status overwrites the status
unconditionally and add_answer appends unconditionally; neither is a
no-op and neither rejects. -/
theorem c4_terminal_state_amended (st : SessionStore) (sid status : String)
    (step : Option String) (now : ℕ) (s : Session)
    (hs : List.lookup sid st = some s) :
    ((managerUpdateSessionStatus st sid status step now).2.map Session.status) =
      some status ∧
    ∀ a, ((managerAddAnswer st sid a now).2.map Session.answers) =
      some (s.answers ++ [a]) := by
  unfold managerUpdateSessionStatus managerAddAnswer
  rw [hs]
  constructor
  · cases step with
    | none => simp
    | some v => by_cases hv : v = "" <;> simp [hv]
  · intro a
    simp

/-- C4 witness: the amended statement applied to the stored completed
session. -/
theorem c4_terminal_state_amended_witness :
    ((managerUpdateSessionStatus [("s2", completedSession)] "s2" "analyzing" none 7).2.map
        Session.status) = some "analyzing" :=
  (c4_terminal_state_amended [("s2", completedSession)] "s2" "analyzing" none 7
    completedSession (by decide)).1

/-- C7: the claim says an Answer whose question_id matches no current
question is processed with question_context null and a general
classification, without an exception.  The context is indeed built
with question_context = None, but _determine_answer_type then calls
startswith on that None and raises AttributeError (the .get default
of an empty string never applies because the key is present), so
process_answer re-raises instead of returning a result; answering an
existing question classifies normally. -/
theorem c7_missing_question_attribute_error :
    (buildAnswerContext waitingSession orphanAnswer).question_context = none ∧
    determineAnswerType (buildAnswerContext waitingSession orphanAnswer) =
      .error "AttributeError: NoneType has no attribute startswith" ∧
    determineAnswerType (buildAnswerContext waitingSession sampleAnswer) =
      .ok "health_risk" := by
  decide

/-- Looking up a key right after assigning it returns the assigned
value. -/
theorem lookup_dictSet_self [DecidableEq α] [LawfulBEq α] (k : α) (v : β)
    (l : List (α × β)) : List.lookup k (dictSet k v l) = some v := by
  induction l with
  | nil => simp [dictSet]
  | cons a t ih =>
      rcases a with ⟨k', v'⟩
      by_cases h : k' = k
      · simp [dictSet, h]
      · rw [dictSet, if_neg h, List.lookup_cons, beq_false_of_ne (Ne.symm h), ih]

/-- Deduplicating a list appended to itself deduplicates the list. -/
theorem dedup_append_self [DecidableEq α] (l : List α) : (l ++ l).dedup = l.dedup := by
  rw [List.dedup_append]
  exact List.Subset.union_eq_right (List.subset_dedup l)

/-- The entity jaccard of a nonempty entity list with itself is 1. -/
theorem entitySimilarity_self (es : List String) (h : es ≠ []) :
    entitySimilarity es es = .ok 1 := by
  unfold entitySimilarity
  have hd : (es ++ es).dedup = es.dedup := dedup_append_self es
  have hne : es.dedup ≠ [] := fun hc => h ((List.dedup_eq_nil es).mp hc)
  have hfilter : es.dedup.filter (fun x => decide (x ∈ es)) = es.dedup := by
    rw [List.filter_eq_self]
    intro x hx
    simpa using List.mem_dedup.mp hx
  rw [hd]
  have hemp : es.dedup.isEmpty = false := by
    cases hc : es.dedup with
    | nil => exact absurd hc hne
    | cons a l => simp
  rw [hemp]
  simp only [Bool.false_eq_true, if_false, hfilter]
  have hlen : (es.dedup.length : ℚ) ≠ 0 := by
    have : es.dedup.length ≠ 0 := fun hc => hne (List.length_eq_zero.mp hc)
    exact_mod_cast this
  rw [div_self hlen]

/-- Context similarity of dicts with disjoint key sets is 0. -/
theorem contextSimilarity_disjoint (c1 c2 : Context)
    (h : ∀ k ∈ contextKeys c1, k ∉ contextKeys c2) :
    calculateContextSimilarity c1 c2 = 0 := by
  unfold calculateContextSimilarity
  have hfil : (contextKeys c1).dedup.filter (fun k => decide (k ∈ contextKeys c2)) = [] := by
    rw [List.filter_eq_nil_iff]
    intro k hk
    simp only [decide_eq_true_eq]
    exact h k (List.mem_dedup.mp hk)
  rw [hfil]
  simp

/-- A key absent from the key list of a dict has no lookup result. -/
theorem lookup_eq_none_of_not_mem_keys [DecidableEq α] [LawfulBEq α] (k : α)
    (l : List (α × β)) (h : k ∉ l.map Prod.fst) : List.lookup k l = none := by
  induction l with
  | nil => rfl
  | cons a t ih =>
      rcases a with ⟨k', v'⟩
      simp only [List.map_cons, List.mem_cons] at h
      push_neg at h
      rw [List.lookup_cons, beq_false_of_ne h.1, ih h.2]

/-- Merging a context whose keys are fresh and pairwise distinct just
appends its entries. -/
theorem mergeContextsFrom_disjoint (c2 : Context) :
    ∀ m : Context, (∀ k ∈ contextKeys c2, k ∉ contextKeys m) →
      (contextKeys c2).Nodup → mergeContextsFrom m c2 = .ok (m ++ c2) := by
  induction c2 with
  | nil =>
      intro m _ _
      simp [mergeContextsFrom]
  | cons a rest ih =>
      intro m hdisj hnd
      rcases a with ⟨k, v⟩
      have hk : k ∉ contextKeys m := hdisj k (by simp [contextKeys])
      have hlk : List.lookup k m = none := lookup_eq_none_of_not_mem_keys k m hk
      have hnd2 : k ∉ List.map Prod.fst rest ∧ (List.map Prod.fst rest).Nodup := by
        have h2 := hnd
        simp only [contextKeys, List.map_cons, List.nodup_cons] at h2
        exact h2
      unfold mergeContextsFrom
      rw [hlk]
      simp only [except_pure_eq, except_bind_ok]
      have hdisj' : ∀ k' ∈ contextKeys rest, k' ∉ contextKeys (m ++ [(k, v)]) := by
        intro k' hk'
        have h1 : k' ∉ contextKeys m := hdisj k' (by
          simp only [contextKeys, List.map_cons, List.mem_cons]
          exact Or.inr hk')
        have h2 : k' ≠ k := fun hc => hnd2.1 (hc ▸ hk')
        simp only [contextKeys, List.map_append, List.mem_append, List.map_cons,
          List.map_nil, List.mem_singleton]
        rintro (hc | hc)
        · exact h1 hc
        · exact h2 hc
      rw [ih (m ++ [(k, v)]) hdisj' hnd2.2]
      simp

/-- The full merge for disjoint, dict-shaped contexts: the result is
the concatenation, i.e. the union of the two key sets with all values
kept. -/
theorem mergeContexts_disjoint (c1 c2 : Context)
    (h : ∀ k ∈ contextKeys c2, k ∉ contextKeys c1)
    (hnd : (contextKeys c2).Nodup) : mergeContexts c1 c2 = .ok (c1 ++ c2) :=
  mergeContextsFrom_disjoint c2 c1 h hnd

/-- C10: the pattern similarity divides by the size of the entity
union: when both compared patterns have empty entity lists it raises
ZeroDivisionError; a nonempty query entity list guarantees a result;
and learn itself crashes on the second empty-entity observation (the
first succeeds because the bucket is still empty, so no comparison
runs). -/
theorem c10_similarity_division_by_zero :
    (∀ (p : Observation) (q : Pattern), p.entities = [] → q.entities = [] →
      calculateSimilarity p q = .error "ZeroDivisionError: division by zero") ∧
    (∀ (p : Observation) (q : Pattern), p.entities ≠ [] →
      ∃ r, calculateSimilarity p q = .ok r) ∧
    ∃ ps1, learnFromInteraction initialPatternState emptyEntitiesData "t0" = .ok ps1 ∧
      learnFromInteraction ps1 emptyEntitiesData "t1" =
        .error "ZeroDivisionError: division by zero" := by
  refine ⟨?_, ?_, ?_⟩
  · intro p q hp hq
    unfold calculateSimilarity entitySimilarity
    rw [hp, hq]
    simp
  · intro p q hp
    unfold calculateSimilarity entitySimilarity
    have hne : (p.entities ++ q.entities).dedup ≠ [] := by
      rw [Ne, List.dedup_eq_nil, List.append_eq_nil]
      intro hc
      exact hp hc.1
    have hemp : ((p.entities ++ q.entities).dedup).isEmpty = false := by
      cases hc : (p.entities ++ q.entities).dedup with
      | nil => exact absurd hc hne
      | cons a l => simp
    rw [hemp]
    simp only [Bool.false_eq_true, if_false, except_bind_ok]
    exact ⟨_, rfl⟩
  · exact ⟨_, rfl, rfl⟩

/-- C10 witness: the two quantified conjuncts applied to concrete
patterns with empty and nonempty entity lists. -/
theorem c10_similarity_division_by_zero_witness :
    calculateSimilarity ⟨some "supplement_interactions", [], none, 1/2, [], "t0"⟩
      ⟨some "supplement_interactions", [], none, 1/2, [], "t0", 1, "t0", []⟩ =
      .error "ZeroDivisionError: division by zero" ∧
    ∃ r, calculateSimilarity ⟨some "supplement_interactions", ["aspirin"], none, 1/2, [], "t0"⟩
      ⟨some "supplement_interactions", [], none, 1/2, [], "t0", 1, "t0", []⟩ = .ok r :=
  ⟨c10_similarity_division_by_zero.1 _ _ rfl rfl,
   c10_similarity_division_by_zero.2.1 _ _ (by simp)⟩

/-- The similarity the second observation scores against the stored
first pattern: identical entities give 1, equal effects give 1,
disjoint contexts give 0, so the weighted sum is 0.8. -/
theorem calculateSimilarity_second_observation (t : String) (es : List String)
    (hes : es ≠ []) (eff : Option String) (q1 q2 : ℚ) (c1 c2 : Context)
    (ts1 ts2 : String)
    (hdisj : ∀ k ∈ contextKeys c2, k ∉ contextKeys c1) :
    calculateSimilarity ⟨some t, es, eff, q2, c2, ts2⟩
      ⟨some t, es, eff, q1, c1, ts1, 1, ts1, []⟩ = .ok (4/5) := by
  unfold calculateSimilarity
  dsimp only
  rw [entitySimilarity_self es hes]
  simp only [except_bind_ok]
  rw [contextSimilarity_disjoint c2 c1 hdisj]
  simp only [beq_self_eq_true, if_true]
  norm_num

/-- Strengthening the stored pattern with the second observation:
averaged confidence, frequency 2, concatenated context, original
timestamps kept. -/
theorem strengthenPattern_second_observation (t : String) (es : List String)
    (eff : Option String) (q1 q2 : ℚ) (c1 c2 : Context) (ts1 ts2 : String)
    (hdisj : ∀ k ∈ contextKeys c2, k ∉ contextKeys c1)
    (hnd : (contextKeys c2).Nodup) :
    strengthenPattern ⟨some t, es, eff, q1, c1, ts1, 1, ts1, []⟩
      ⟨some t, es, eff, q2, c2, ts2⟩ =
      .ok ⟨some t, es, eff, (q1 + q2) / 2, c1 ++ c2, ts1, 2, ts1, []⟩ := by
  unfold strengthenPattern
  dsimp only
  rw [mergeContexts_disjoint c1 c2 hdisj hnd]
  simp only [except_bind_ok, except_pure_eq]
  norm_num [Pattern.mk.injEq]

/-- C5: starting from the empty store, an observation followed by a
second one with the same entities (nonempty) and effect but a
disjoint (dict-shaped) context strengthens the pattern created by the
first: the bucket then holds exactly one pattern with frequency 2,
confidence the plain average of the two input confidences, and
context the union (concatenation) of both key sets. -/
theorem c5_pattern_strengthen (t : String)
    (ht : t = "supplement_interactions" ∨ t = "health_conditions" ∨
      t = "medication_interactions" ∨ t = "temporal_patterns")
    (es : List String) (hes : es ≠ []) (eff : Option String) (q1 q2 : ℚ)
    (c1 c2 : Context)
    (hdisj : ∀ k ∈ contextKeys c2, k ∉ contextKeys c1)
    (hnd : (contextKeys c2).Nodup) (ts1 ts2 : String) :
    ∃ ps1,
      learnFromInteraction initialPatternState ⟨some t, some es, eff, some q1, some c1⟩
        ts1 = .ok ps1 ∧
      ∃ ps2,
        learnFromInteraction ps1 ⟨some t, some es, eff, some q2, some c2⟩ ts2 = .ok ps2 ∧
        List.lookup t ps2.patterns =
          some [(t ++ "_" ++ "0",
            ⟨some t, es, eff, (q1 + q2) / 2, c1 ++ c2, ts1, 2, ts1, []⟩)] := by
  have hbucket0 : List.lookup t initialPatternState.patterns = some [] := by
    rcases ht with rfl | rfl | rfl | rfl <;> rfl
  refine ⟨⟨dictSet t [(t ++ "_" ++ "0", ⟨some t, es, eff, q1, c1, ts1, 1, ts1, []⟩)]
      initialPatternState.patterns,
    [(⟨some t, es, eff, q1, c1, ts1⟩, ts1, "strengthen")]⟩, ?_, ?_⟩
  · unfold learnFromInteraction
    dsimp only [extractPattern, Option.getD]
    have hgb : getBucket initialPatternState (some t) = .ok [] := by
      unfold getBucket
      dsimp only
      rw [hbucket0]
    rw [hgb]
    simp only [except_bind_ok]
    rw [show findSimilarPatterns ⟨some t, es, eff, q1, c1, ts1⟩ [] = .ok [] from rfl]
    simp only [except_bind_ok]
    rfl
  · refine ⟨⟨dictSet t
        [(t ++ "_" ++ "0", ⟨some t, es, eff, (q1 + q2) / 2, c1 ++ c2, ts1, 2, ts1, []⟩)]
        (dictSet t [(t ++ "_" ++ "0", ⟨some t, es, eff, q1, c1, ts1, 1, ts1, []⟩)]
          initialPatternState.patterns),
      [(⟨some t, es, eff, q1, c1, ts1⟩, ts1, "strengthen"),
       (⟨some t, es, eff, q2, c2, ts2⟩, ts2, "strengthen")]⟩, ?_, ?_⟩
    · unfold learnFromInteraction
      dsimp only [extractPattern, Option.getD]
      have hgb2 : getBucket
          ⟨dictSet t [(t ++ "_" ++ "0", ⟨some t, es, eff, q1, c1, ts1, 1, ts1, []⟩)]
            initialPatternState.patterns,
           [(⟨some t, es, eff, q1, c1, ts1⟩, ts1, "strengthen")]⟩ (some t) =
          .ok [(t ++ "_" ++ "0", ⟨some t, es, eff, q1, c1, ts1, 1, ts1, []⟩)] := by
        unfold getBucket
        dsimp only
        rw [lookup_dictSet_self]
      rw [hgb2]
      simp only [except_bind_ok]
      have hfs2 : findSimilarPatterns ⟨some t, es, eff, q2, c2, ts2⟩
          [(t ++ "_" ++ "0", ⟨some t, es, eff, q1, c1, ts1, 1, ts1, []⟩)] =
          .ok [(t ++ "_" ++ "0", ⟨some t, es, eff, q1, c1, ts1, 1, ts1, []⟩)] := by
        unfold findSimilarPatterns findSimilarFrom
        rw [calculateSimilarity_second_observation t es hes eff q1 q2 c1 c2 ts1 ts2 hdisj]
        simp only [except_bind_ok]
        norm_num [sortDescBy, insertDescBy]
        rw [show findSimilarFrom (⟨some t, es, eff, q2, c2, ts2⟩ : Observation) [] =
          .ok [] from rfl]
        simp only [except_bind_ok]
        rfl
      rw [hfs2]
      simp only [except_bind_ok]
      rw [strengthenPattern_second_observation t es eff q1 q2 c1 c2 ts1 ts2 hdisj hnd]
      simp only [except_bind_ok]
      have hub : updateBucketEntry
          [(t ++ "_" ++ "0", ⟨some t, es, eff, q1, c1, ts1, 1, ts1, []⟩)]
          (t ++ "_" ++ "0")
          ⟨some t, es, eff, (q1 + q2) / 2, c1 ++ c2, ts1, 2, ts1, []⟩ =
          [(t ++ "_" ++ "0", ⟨some t, es, eff, (q1 + q2) / 2, c1 ++ c2, ts1, 2, ts1, []⟩)] := by
        simp [updateBucketEntry]
      rw [hub]
      rfl
    · dsimp only
      rw [lookup_dictSet_self]

/-- C5 witness: the theorem applied to a concrete pair of
observations with identical entities and effect and disjoint
one-entry contexts. -/
theorem c5_pattern_strengthen_witness :
    ∃ ps1,
      learnFromInteraction initialPatternState
        ⟨some "supplement_interactions", some ["vitamin_d", "calcium"],
         some "absorption_up", some (4/5), some [("age_group", CtxVal.scalar "adult")]⟩
        "t1" = .ok ps1 ∧
      ∃ ps2,
        learnFromInteraction ps1
          ⟨some "supplement_interactions", some ["vitamin_d", "calcium"],
           some "absorption_up", some (3/5), some [("season", CtxVal.scalar "winter")]⟩
          "t2" = .ok ps2 ∧
        List.lookup "supplement_interactions" ps2.patterns =
          some [("supplement_interactions" ++ "_" ++ "0",
            ⟨some "supplement_interactions", ["vitamin_d", "calcium"],
             some "absorption_up", (4/5 + 3/5) / 2,
             [("age_group", CtxVal.scalar "adult")] ++ [("season", CtxVal.scalar "winter")],
             "t1", 2, "t1", []⟩)] :=
  c5_pattern_strengthen "supplement_interactions" (Or.inl rfl)
    ["vitamin_d", "calcium"] (by decide) (some "absorption_up") (4/5) (3/5)
    [("age_group", CtxVal.scalar "adult")] [("season", CtxVal.scalar "winter")]
    (by decide) (by decide) "t1" "t2"

/-- Mapping over a successful Except maps the value. -/
@[simp] theorem except_map_ok (f : α → β) (a : α) :
    (Except.ok a : Except ε α).map f = .ok (f a) := rfl

/-- Mapping over a failed Except keeps the error. -/
@[simp] theorem except_map_error (f : α → β) (e : ε) :
    (Except.error e : Except ε α).map f = .error e := rfl

/-- Stable descending insertion respects question content: questions
with equal content (hence equal priority) inserted into content-equal
lists give content-equal lists. -/
theorem insertDescBy_content (q q' : Question)
    (hq : questionContent q = questionContent q') :
    ∀ (l l' : List Question), l.map questionContent = l'.map questionContent →
    (insertDescBy (fun x => x.priority) q l).map questionContent =
      (insertDescBy (fun x => x.priority) q' l').map questionContent := by
  have hqp : q.priority = q'.priority := congrArg (fun c => c.2.2.1) hq
  intro l
  induction l with
  | nil =>
      intro l' h
      cases l' with
      | nil => simp [insertDescBy, hq]
      | cons x t => simp at h
  | cons x t ih =>
      intro l' h
      cases l' with
      | nil => simp at h
      | cons x' t' =>
          simp only [List.map_cons, List.cons.injEq] at h
          have hxp : x.priority = x'.priority := congrArg (fun c => c.2.2.1) h.1
          unfold insertDescBy
          by_cases hc : x.priority ≤ q.priority
          · rw [if_pos hc, if_pos (by rw [← hxp, ← hqp]; exact hc)]
            simp [hq, h.1, h.2]
          · rw [if_neg hc, if_neg (by rw [← hxp, ← hqp]; exact hc)]
            simp only [List.map_cons, h.1, List.cons.injEq, true_and]
            exact ih t' h.2

/-- The stable descending sort respects question content. -/
theorem sortDescBy_content :
    ∀ (l l' : List Question), l.map questionContent = l'.map questionContent →
    (sortDescBy (fun x => x.priority) l).map questionContent =
      (sortDescBy (fun x => x.priority) l').map questionContent := by
  intro l
  induction l with
  | nil =>
      intro l' h
      cases l' with
      | nil => rfl
      | cons x t => simp at h
  | cons x t ih =>
      intro l' h
      cases l' with
      | nil => simp at h
      | cons x' t' =>
          simp only [List.map_cons, List.cons.injEq] at h
          unfold sortDescBy
          exact insertDescBy_content x x' h.1 _ _ (ih t' h.2)

/-- A nonempty warning list makes _generate_interaction_questions
raise at the first subscript, before any uuid is drawn. -/
theorem generateInteractionQuestions_cons (ids : ℕ → String) (k : ℕ)
    (w : InteractionWarning) (rest : List InteractionWarning) :
    generateInteractionQuestions ids k (w :: rest) =
      .error "TypeError: InteractionWarning object is not subscriptable" := rfl

/-- Interaction questions do not depend on the identifier supply,
content-wise: the empty list yields no questions and a nonempty list
raises the same TypeError on both calls. -/
theorem generateInteractionQuestions_content (ids ids2 : ℕ → String)
    (ws : List InteractionWarning) (k k2 : ℕ) :
    (generateInteractionQuestions ids k ws).map (fun p => p.1.map questionContent) =
      (generateInteractionQuestions ids2 k2 ws).map (fun p => p.1.map questionContent) := by
  cases ws with
  | nil => rfl
  | cons w rest =>
      rw [generateInteractionQuestions_cons, generateInteractionQuestions_cons]

/-- Condition questions do not depend on the identifier supply,
content-wise (the store and its answers are shared). -/
theorem generateConditionQuestions_content (ids ids2 : ℕ → String) (store : Store)
    (conds : List String) :
    ∀ k k2, (generateConditionQuestions ids k store conds).map
        (fun p => p.1.map questionContent) =
      (generateConditionQuestions ids2 k2 store conds).map
        (fun p => p.1.map questionContent) := by
  induction conds with
  | nil => intro k k2; rfl
  | cons cond rest ih =>
      intro k k2
      unfold generateConditionQuestions
      cases hs : store (cond ++ " patient assessment questions") "health_data" 2 with
      | error e => rfl
      | ok res =>
          simp only [except_bind_ok]
          by_cases hd : res.documents.isEmpty
          · simp only [hd, if_true]
            exact ih k k2
          · simp only [hd, Bool.false_eq_true, if_false]
            have hih := ih (k + 1) (k2 + 1)
            cases hm1 : generateConditionQuestions ids (k + 1) store rest with
            | error e1 =>
                cases hm2 : generateConditionQuestions ids2 (k2 + 1) store rest with
                | error e2 =>
                    rw [hm1, hm2] at hih
                    simp only [except_map_error, Except.error.injEq] at hih
                    simp [hih]
                | ok p2 =>
                    rw [hm1, hm2] at hih
                    simp at hih
            | ok p1 =>
                cases hm2 : generateConditionQuestions ids2 (k2 + 1) store rest with
                | error e2 =>
                    rw [hm1, hm2] at hih
                    simp at hih
                | ok p2 =>
                    rcases p1 with ⟨more1, fin1⟩
                    rcases p2 with ⟨more2, fin2⟩
                    rw [hm1, hm2] at hih
                    simp only [except_map_ok, Except.ok.injEq] at hih
                    simp only [except_bind_ok]
                    simpa [questionContent] using hih

/-- Lifestyle questions do not depend on the identifier supply,
content-wise. -/
theorem generateLifestyleQuestions_content (ids ids2 : ℕ → String) (k k2 : ℕ)
    (lf : Lifestyle) :
    (generateLifestyleQuestions ids k lf).1.map questionContent =
      (generateLifestyleQuestions ids2 k2 lf).1.map questionContent := by
  unfold generateLifestyleQuestions
  by_cases h1 : lf.exercise_frequency.getD 0 < 3 <;>
    by_cases h2 : lf.sleep_hours.getD 0 < 7 <;>
      by_cases h3 : lf.stress_level.getD 0 > 3 <;>
        simp [h1, h2, h3, questionContent]

/-- C8 counterexample: calling the generator twice on a session with
the same analysis result and no new answers does not return the same
questions, because each question id is a fresh uuid4: on a session
whose only question source is a lifestyle gap (those questions are
built from the plain health_data dict), the second call (the uuid
stream having advanced) yields a question differing in id.  A session
whose analysis result carries interaction warnings does not even get
that far: the generator raises TypeError on both calls, because the
warnings are pydantic models and the loop subscripts them. -/
theorem c8_idempotence_counterexample :
    generateQuestions uuidStream 0 emptyStore lifestyleSession =
      .ok ([⟨"uuid-0", "운동하기 어려운 특별한 이유가 있으신가요?",
        "lifestyle_exercise_barrier", 1, none, false⟩], 1) ∧
    generateQuestions uuidStream 1 emptyStore lifestyleSession =
      .ok ([⟨"uuid-1", "운동하기 어려운 특별한 이유가 있으신가요?",
        "lifestyle_exercise_barrier", 1, none, false⟩], 2) ∧
    (⟨"uuid-0", "운동하기 어려운 특별한 이유가 있으신가요?",
        "lifestyle_exercise_barrier", 1, none, false⟩ : Question) ≠
      ⟨"uuid-1", "운동하기 어려운 특별한 이유가 있으신가요?",
        "lifestyle_exercise_barrier", 1, none, false⟩ ∧
    generateQuestions uuidStream 0 emptyStore warningSession =
      .error "TypeError: InteractionWarning object is not subscriptable" := by
  refine ⟨?_, ?_, by decide, ?_⟩
  · norm_num [generateQuestions, generateLifestyleQuestions, generateInteractionQuestions,
      chronicConditionsOf, lifestyleSession, emptyAnalysisResult, sortDescBy,
      insertDescBy, uuidStream]
    decide
  · norm_num [generateQuestions, generateLifestyleQuestions, generateInteractionQuestions,
      chronicConditionsOf, lifestyleSession, emptyAnalysisResult, sortDescBy,
      insertDescBy, uuidStream]
    decide
  · rfl

/-- C8 amended: the generator is idempotent up to the freshly drawn
uuid ids: two calls on the same session state, wherever the id stream
stands, produce the same questions with the same text, context,
priority, evidence and interaction flag in the same order (or the
same error). -/
theorem c8_idempotence_amended (ids ids2 : ℕ → String) (k k2 : ℕ) (store : Store)
    (s : Session) :
    (generateQuestions ids k store s).map (fun p => p.1.map questionContent) =
      (generateQuestions ids2 k2 store s).map (fun p => p.1.map questionContent) := by
  unfold generateQuestions
  have hrel : (((match s.analysis_results with
      | some ar =>
          if ar.interaction_warnings.isEmpty then Except.ok (([] : List Question), k)
          else generateInteractionQuestions ids k ar.interaction_warnings
      | none => Except.ok (([] : List Question), k)) :
        Except String (List Question × ℕ)).map
        (fun p => p.1.map questionContent)) =
      (((match s.analysis_results with
      | some ar =>
          if ar.interaction_warnings.isEmpty then Except.ok (([] : List Question), k2)
          else generateInteractionQuestions ids2 k2 ar.interaction_warnings
      | none => Except.ok (([] : List Question), k2)) :
        Except String (List Question × ℕ)).map
        (fun p => p.1.map questionContent)) := by
    cases s.analysis_results with
    | none => rfl
    | some ar =>
        by_cases he : ar.interaction_warnings.isEmpty
        · simp [he]
        · simp only [he, Bool.false_eq_true, if_false]
          exact generateInteractionQuestions_content ids ids2 ar.interaction_warnings k k2
  cases hq1a : ((match s.analysis_results with
      | some ar =>
          if ar.interaction_warnings.isEmpty then Except.ok (([] : List Question), k)
          else generateInteractionQuestions ids k ar.interaction_warnings
      | none => Except.ok (([] : List Question), k)) :
        Except String (List Question × ℕ)) with
  | error e1 =>
      cases hq1b : ((match s.analysis_results with
          | some ar =>
              if ar.interaction_warnings.isEmpty then Except.ok (([] : List Question), k2)
              else generateInteractionQuestions ids2 k2 ar.interaction_warnings
          | none => Except.ok (([] : List Question), k2)) :
            Except String (List Question × ℕ)) with
      | error e2 =>
          rw [hq1a, hq1b] at hrel
          simp only [except_map_error, Except.error.injEq] at hrel
          simp only [except_bind_error, except_map_error, hrel]
      | ok p2 =>
          rw [hq1a, hq1b] at hrel
          simp at hrel
  | ok p1 =>
  cases hq1b : ((match s.analysis_results with
      | some ar =>
          if ar.interaction_warnings.isEmpty then Except.ok (([] : List Question), k2)
          else generateInteractionQuestions ids2 k2 ar.interaction_warnings
      | none => Except.ok (([] : List Question), k2)) :
        Except String (List Question × ℕ)) with
  | error e2 =>
      rw [hq1a, hq1b] at hrel
      simp at hrel
  | ok p2 =>
  rcases p1 with ⟨qs1, k1⟩
  rcases p2 with ⟨qs1', k1'⟩
  rw [hq1a, hq1b] at hrel
  simp only [except_map_ok, Except.ok.injEq] at hrel
  have h1 : qs1.map questionContent = qs1'.map questionContent := hrel
  simp only [except_bind_ok]
  by_cases hcc : (chronicConditionsOf s.health_data).isEmpty
  · simp only [hcc, if_true, except_bind_ok]
    cases hlf : s.health_data.lifestyle with
    | none =>
        dsimp only
        simp only [except_map_ok, Except.ok.injEq]
        apply sortDescBy_content
        simp [h1]
    | some lf =>
        dsimp only
        cases hl1 : generateLifestyleQuestions ids k1 lf with
        | mk l3 k3 =>
        cases hl2 : generateLifestyleQuestions ids2 k1' lf with
        | mk l3' k3' =>
        have h3 := generateLifestyleQuestions_content ids ids2 k1 k1' lf
        rw [hl1, hl2] at h3
        simp only [except_map_ok, Except.ok.injEq]
        apply sortDescBy_content
        simp [h1, h3]
  · simp only [hcc, Bool.false_eq_true, if_false]
    have h2 := generateConditionQuestions_content ids ids2 store
      (chronicConditionsOf s.health_data) k1 k1'
    cases hc1 : generateConditionQuestions ids k1 store (chronicConditionsOf s.health_data) with
    | error e1 =>
        cases hc2 : generateConditionQuestions ids2 k1' store
            (chronicConditionsOf s.health_data) with
        | error e2 =>
            rw [hc1, hc2] at h2
            simp only [except_map_error, Except.error.injEq] at h2
            simp [hc1, hc2, h2]
        | ok p2 =>
            rw [hc1, hc2] at h2
            simp at h2
    | ok p1 =>
        cases hc2 : generateConditionQuestions ids2 k1' store
            (chronicConditionsOf s.health_data) with
        | error e2 =>
            rw [hc1, hc2] at h2
            simp at h2
        | ok p2 =>
            rcases p1 with ⟨qs2, kk2⟩
            rcases p2 with ⟨qs2', kk2'⟩
            rw [hc1, hc2] at h2
            simp only [except_map_ok, Except.ok.injEq] at h2
            simp only [except_bind_ok]
            cases hlf : s.health_data.lifestyle with
            | none =>
                dsimp only
                simp only [except_map_ok, Except.ok.injEq]
                apply sortDescBy_content
                simp [h1, h2]
            | some lf =>
                dsimp only
                cases hl1 : generateLifestyleQuestions ids kk2 lf with
                | mk l3 k3 =>
                cases hl2 : generateLifestyleQuestions ids2 kk2' lf with
                | mk l3' k3' =>
                have h3 := generateLifestyleQuestions_content ids ids2 kk2 kk2' lf
                rw [hl1, hl2] at h3
                simp only [except_map_ok, Except.ok.injEq]
                apply sortDescBy_content
                simp [h1, h2, h3]

end JERRY
